import Mathlib

/-!
Verification of the call-lifecycle cost/usage tracking and outcome-detection
engine of the boostmydeal repository (src/orchestrates/unified_cost_tracker.py
and src/orchestrates/simple_webhooks.py), via a shallow embedding.

Python floats are modelled as rationals, Python dicts as association lists,
and the mutating methods of UnifiedCostTracker / CustomEventsManager as pure
state-passing functions.  Timestamps (time.time, datetime.utcnow) are
irrelevant to every property considered here; where the source stores one we
either take it as an explicit parameter or omit the field it is stored in.
-/

namespace BoostMyDeal

/-! ## String helpers (Python str operations used by the source) -/

/-- Boolean prefix test on character lists. -/
def isPrefixOfB : List Char → List Char → Bool
  | [], _ => true
  | _ :: _, [] => false
  | a :: as, b :: bs => a == b && isPrefixOfB as bs

/-- Python substring containment `needle in hay` on character lists. -/
def occurs (needle : List Char) : List Char → Bool
  | [] => isPrefixOfB needle []
  | c :: rest => isPrefixOfB needle (c :: rest) || occurs needle rest

/-- Python `str.lower()` (all source phrases are ASCII). -/
def lowerS (s : String) : String :=
  ⟨s.data.map Char.toLower⟩

/-- Python `str.split(sep)` for a single-character separator, keeping
empty pieces, on character lists. -/
def splitOnChar (sep : Char) : List Char → List (List Char)
  | [] => [[]]
  | c :: rest =>
    match splitOnChar sep rest with
    | [] => if c = sep then [[], []] else [[c]]
    | x :: xs => if c = sep then [] :: x :: xs else (c :: x) :: xs

/-- Python `str.strip()`: drop whitespace from both ends. -/
def stripChars (l : List Char) : List Char :=
  ((l.dropWhile Char.isWhitespace).reverse.dropWhile Char.isWhitespace).reverse

/-- Helper for `countWords`: the flag records whether we are inside a word. -/
def countWordsAux : Bool → List Char → ℕ
  | _, [] => 0
  | inWord, c :: rest =>
    if c.isWhitespace then countWordsAux false rest
    else (if inWord then 0 else 1) + countWordsAux true rest

/-- Python `len(s.split())`: number of maximal whitespace-free runs. -/
def countWords (l : List Char) : ℕ :=
  countWordsAux false l

/-- Python truthiness-based `a or b` on strings: empty string is falsy. -/
def pyOrStr (a b : String) : String :=
  if a = "" then b else a

/-- Python `a or b` where `a` is an `Optional[str]`. -/
def pyOptOrStr (a : Option String) (b : String) : String :=
  match a with
  | none => b
  | some s => pyOrStr s b

/-! ## Association lists (Python dicts keyed by call id) -/

/-- Python `d.get(k)` / `k in d`. -/
def lookupA {β : Type} (k : String) : List (String × β) → Option β
  | [] => none
  | (k', v) :: rest => if k = k' then some v else lookupA k rest

/-- Removal of a key, Python `d.pop(k, None)`. -/
def eraseA {β : Type} (k : String) : List (String × β) → List (String × β)
  | [] => []
  | (k', v) :: rest => if k' = k then eraseA k rest else (k', v) :: eraseA k rest

/-- Python `d[k] = v` (overwrite or add). -/
def insertA {β : Type} (k : String) (v : β) (l : List (String × β)) :
    List (String × β) :=
  (k, v) :: eraseA k l

/-! ## Data model (dataclasses of unified_cost_tracker.py)

The `timestamp` entry of a usage-detail record is wall-clock output and is
never read by the tracker; it is omitted.  The dedup logic reads only the
`context` entry, the amount entry is kept as `amount`. -/

/-- One element of `ServiceUsage.usage_details`. -/
structure UsageDetail where
  amount : ℚ := 0
  context : String := ""
deriving DecidableEq

/-- Dataclass `ServiceUsage`. -/
structure ServiceUsage where
  provider : String := ""
  model : String := ""
  total_usage : ℚ := 0
  usage_count : ℕ := 0
  usage_details : List UsageDetail := []
deriving DecidableEq

/-- Dataclass `LLMUsage`. -/
structure LLMUsage where
  provider : String := ""
  model : String := ""
  input_tokens : ℕ := 0
  output_tokens : ℕ := 0
  total_tokens : ℕ := 0
  requests_count : ℕ := 0
  usage_contexts : List String := []
deriving DecidableEq

/-- Dataclass `CostBreakdown`. -/
structure CostBreakdown where
  transcription_cost : ℚ := 0
  synthesis_cost : ℚ := 0
  llm_cost : ℚ := 0
  telephony_cost : ℚ := 0
  total_cost : ℚ := 0
  transcription_seconds : ℚ := 0
  synthesis_characters : ℕ := 0
  llm_input_tokens : ℕ := 0
  llm_output_tokens : ℕ := 0
  call_duration_seconds : ℚ := 0
  transcription_provider : String := ""
  synthesis_provider : String := ""
  llm_provider : String := ""
deriving DecidableEq

/-- Dataclass `CallMetrics` (`start_time` is taken as a parameter of
`start_call_tracking` since `time.time()` is nondeterministic I/O). -/
structure CallMetrics where
  call_id : String := ""
  start_time : ℚ := 0
  transcription : ServiceUsage := {}
  synthesis : ServiceUsage := {}
  llm : LLMUsage := {}
  call_duration_seconds : ℚ := 0
  transcript_characters : ℕ := 0
  transcript_words : ℕ := 0
deriving DecidableEq

/-- State of a `UnifiedCostTracker` instance: its three per-call dicts. -/
structure UnifiedCostTracker where
  call_metrics : List (String × CallMetrics) := []
  call_costs : List (String × CostBreakdown) := []
  call_start_times : List (String × ℚ) := []
deriving DecidableEq

/-! ## The pricing rate table (`self.pricing_rates`)

The Python table is one dict whose values are per-model rate dicts; the
openai entry maps each model to an inner input/output dict while all other
providers map models to plain numbers.  An entry is therefore a plain price
or a per-token pair. -/

/-- A value of an inner per-model rate dict. -/
inductive RateEntry where
  | price : ℚ → RateEntry
  | perToken : ℚ → ℚ → RateEntry
deriving DecidableEq

/-- The `pricing_rates` table built in `UnifiedCostTracker.__init__`. -/
def pricing_rates : List (String × List (String × RateEntry)) :=
  [("deepgram",
    [("nova-2", .price 0.0036), ("enhanced", .price 0.0115),
     ("base", .price 0.0095), ("whisper", .price 0.0048),
     ("default", .price 0.0036)]),
   ("rime",
    [("mist", .price 0.000016), ("arcana", .price 0.000020),
     ("default", .price 0.000016)]),
   ("elevenlabs",
    [("turbo_v2", .price 0.000018), ("multilingual_v2", .price 0.000030),
     ("eleven_multilingual_v2", .price 0.000030),
     ("eleven_flash_v2", .price 0.000018),
     ("eleven_turbo_v2", .price 0.000018), ("default", .price 0.000018)]),
   ("eleven_labs",
    [("turbo_v2", .price 0.000018), ("multilingual_v2", .price 0.000030),
     ("eleven_multilingual_v2", .price 0.000030),
     ("eleven_flash_v2", .price 0.000018),
     ("eleven_turbo_v2", .price 0.000018), ("default", .price 0.000018)]),
   ("streamelements", [("default", .price 0.0)]),
   ("stream_elements", [("default", .price 0.0)]),
   ("twilio",
    [("outbound_local", .price 0.014), ("outbound_tollfree", .price 0.014),
     ("outbound_default", .price 0.014), ("browser_app", .price 0.004),
     ("recording", .price 0.0025)]),
   ("openai",
    [("gpt-4", .perToken 0.000005 0.000020),
     ("gpt-4o", .perToken 0.000005 0.000020),
     ("gpt-4o-mini", .perToken 0.00000015 0.0000006),
     ("gpt-4.1-nano", .perToken 0.0000001 0.0000004),
     ("gpt-4-turbo", .perToken 0.000010 0.000030),
     ("gpt-3.5-turbo", .perToken 0.0000005 0.0000015)])]

/-- `provider_rates.get(model_key, provider_rates.get("default", 0))` as used
by the transcription/synthesis cost paths.  A `perToken` hit would be a
Python `TypeError` (a dict multiplied by a float); it is unreachable for the
flat providers these paths are used with and is mapped to 0. -/
def flatRateOf (provider_rates : List (String × RateEntry))
    (model_key : String) : ℚ :=
  match lookupA model_key provider_rates with
  | some (RateEntry.price r) => r
  | some (RateEntry.perToken _ _) => 0
  | none =>
    match lookupA "default" provider_rates with
    | some (RateEntry.price r) => r
    | _ => 0

/-- The rate used by `add_transcription_usage` / `add_synthesis_usage`:
0 when the provider is absent from `pricing_rates`, else the flat lookup. -/
def lookupFlatRate (provider model_key : String) : ℚ :=
  match lookupA provider pricing_rates with
  | none => 0
  | some provider_rates => flatRateOf provider_rates model_key

/-- The per-model input/output rate pair used by `add_llm_usage`: the model
entry if present, else the `gpt-4o-mini` entry, else (0, 0).  A `price` hit
would be a Python `AttributeError` (a float has no `.get`); it is
unreachable for the openai table and is mapped to (0, 0). -/
def llmRatesOf (provider_rates : List (String × RateEntry))
    (model_key : String) : ℚ × ℚ :=
  match lookupA model_key provider_rates with
  | some (RateEntry.perToken i o) => (i, o)
  | some (RateEntry.price _) => (0, 0)
  | none =>
    match lookupA "gpt-4o-mini" provider_rates with
    | some (RateEntry.perToken i o) => (i, o)
    | _ => (0, 0)

/-- The llm rate pair including the provider-membership guard. -/
def lookupLLMRates (provider model_key : String) : ℚ × ℚ :=
  match lookupA provider pricing_rates with
  | none => (0, 0)
  | some provider_rates => llmRatesOf provider_rates model_key

/-! ## Tracker operations -/

/-- `_update_total_cost`: recompute `total_cost` from the four components.
The Python method re-reads the breakdown from `call_costs`; at every call
site the entry is the breakdown being updated, which is passed directly. -/
def update_total_cost (cb : CostBreakdown) : CostBreakdown :=
  { cb with total_cost :=
      cb.transcription_cost + cb.synthesis_cost + cb.llm_cost +
        cb.telephony_cost }

/-- `start_call_tracking` (the two `time.time()` reads are the `now`
parameter). -/
def start_call_tracking (t : UnifiedCostTracker) (call_id : String)
    (transcription_provider transcription_model : String)
    (synthesis_provider synthesis_model : String)
    (llm_provider llm_model : String) (now : ℚ) : UnifiedCostTracker :=
  let metrics : CallMetrics :=
    { call_id := call_id, start_time := now,
      transcription :=
        { provider := transcription_provider, model := transcription_model },
      synthesis :=
        { provider := synthesis_provider, model := synthesis_model },
      llm := { provider := llm_provider, model := llm_model } }
  { call_metrics := insertA call_id metrics t.call_metrics,
    call_costs := insertA call_id
      { transcription_provider := transcription_provider,
        synthesis_provider := synthesis_provider,
        llm_provider := llm_provider } t.call_costs,
    call_start_times := insertA call_id now t.call_start_times }

/-- `add_transcription_usage`. -/
def add_transcription_usage (t : UnifiedCostTracker) (call_id : String)
    (duration_seconds : ℚ) (model : Option String) (context : String) :
    UnifiedCostTracker :=
  match lookupA call_id t.call_metrics with
  | none => t
  | some metrics =>
    if context = "speech_recognition_from_transcript" ∧
        0 < metrics.transcription.usage_count then t
    else
      let tr0 := metrics.transcription
      let tr1 :=
        if context = "live_transcription" ∧
            tr0.usage_details.any
              (fun d => occurs "transcript".data d.context.data) then
          { tr0 with total_usage := 0, usage_count := 0, usage_details := [] }
        else tr0
      let tr2 : ServiceUsage :=
        { tr1 with
          total_usage := tr1.total_usage + duration_seconds,
          usage_count := tr1.usage_count + 1,
          usage_details := tr1.usage_details ++
            [{ amount := duration_seconds, context := context }] }
      let newMetrics :=
        insertA call_id ({ metrics with transcription := tr2 }) t.call_metrics
      let t1 : UnifiedCostTracker := { t with call_metrics := newMetrics }
      match lookupA call_id t1.call_costs with
      | none => t1
      | some cb =>
        let provider := lowerS cb.transcription_provider
        let actual_model := pyOrStr (pyOptOrStr model tr2.model) "default"
        let duration_minutes := duration_seconds / 60
        let rate := lookupFlatRate provider (lowerS actual_model)
        let cost := duration_minutes * rate
        let cb1 :=
          { cb with
            transcription_seconds := cb.transcription_seconds +
              duration_seconds,
            transcription_cost := cb.transcription_cost + cost }
        { t1 with call_costs :=
            insertA call_id (update_total_cost cb1) t1.call_costs }

/-- `add_synthesis_usage`. -/
def add_synthesis_usage (t : UnifiedCostTracker) (call_id : String)
    (character_count : ℕ) (model : Option String) (context : String) :
    UnifiedCostTracker :=
  match lookupA call_id t.call_metrics with
  | none => t
  | some metrics =>
    if context = "agent_responses_from_transcript" ∧
        0 < metrics.synthesis.usage_count then t
    else
      let sy0 := metrics.synthesis
      let sy1 :=
        if context = "live_synthesis" ∧
            sy0.usage_details.any
              (fun d => occurs "transcript".data d.context.data) then
          { sy0 with total_usage := 0, usage_count := 0, usage_details := [] }
        else sy0
      let sy2 : ServiceUsage :=
        { sy1 with
          total_usage := sy1.total_usage + (character_count : ℚ),
          usage_count := sy1.usage_count + 1,
          usage_details := sy1.usage_details ++
            [{ amount := (character_count : ℚ), context := context }] }
      let newMetrics :=
        insertA call_id ({ metrics with synthesis := sy2 }) t.call_metrics
      let t1 : UnifiedCostTracker := { t with call_metrics := newMetrics }
      match lookupA call_id t1.call_costs with
      | none => t1
      | some cb =>
        let provider := lowerS cb.synthesis_provider
        let actual_model := pyOrStr (pyOptOrStr model sy2.model) "default"
        let rate := lookupFlatRate provider (lowerS actual_model)
        let cost := (character_count : ℚ) * rate
        let cb1 :=
          { cb with
            synthesis_characters := cb.synthesis_characters + character_count,
            synthesis_cost := cb.synthesis_cost + cost }
        { t1 with call_costs :=
            insertA call_id (update_total_cost cb1) t1.call_costs }

/-- `add_llm_usage`.  Note that, unlike the transcription/synthesis paths,
the model key is looked up without lower-casing. -/
def add_llm_usage (t : UnifiedCostTracker) (call_id : String)
    (input_tokens output_tokens : ℕ) (model : Option String)
    (context : String) : UnifiedCostTracker :=
  match lookupA call_id t.call_metrics with
  | none => t
  | some metrics =>
    if context = "agent_conversation" ∧
        metrics.llm.usage_contexts.any
          (fun ctx => occurs "live_agent_response".data ctx.data) then t
    else
      let l0 := metrics.llm
      let l1 : LLMUsage :=
        { l0 with
          input_tokens := l0.input_tokens + input_tokens,
          output_tokens := l0.output_tokens + output_tokens,
          total_tokens := l0.total_tokens + (input_tokens + output_tokens),
          requests_count := l0.requests_count + 1,
          usage_contexts := l0.usage_contexts ++
            [context ++ ":" ++ toString input_tokens ++ "/" ++
              toString output_tokens] }
      let newMetrics :=
        insertA call_id ({ metrics with llm := l1 }) t.call_metrics
      let t1 : UnifiedCostTracker := { t with call_metrics := newMetrics }
      match lookupA call_id t1.call_costs with
      | none => t1
      | some cb =>
        let provider := lowerS cb.llm_provider
        let actual_model := pyOrStr (pyOptOrStr model l1.model) "gpt-4o-mini"
        let rates := lookupLLMRates provider actual_model
        let total_llm_cost :=
          (input_tokens : ℚ) * rates.1 + (output_tokens : ℚ) * rates.2
        let cb1 :=
          { cb with
            llm_input_tokens := cb.llm_input_tokens + input_tokens,
            llm_output_tokens := cb.llm_output_tokens + output_tokens,
            llm_cost := cb.llm_cost + total_llm_cost }
        { t1 with call_costs :=
            insertA call_id (update_total_cost cb1) t1.call_costs }

/-- The `real_cost_data` dict passed to `add_telephony_cost` (only the keys
the cost path reads). -/
structure RealCostData where
  data_source : String := ""
  cost_usd : ℚ := 0
  duration_minutes : ℚ := 0
deriving DecidableEq

/-- The twilio row of `pricing_rates` (`self.pricing_rates.get("twilio", {})`). -/
def twilioRates : List (String × RateEntry) :=
  (lookupA "twilio" pricing_rates).getD []

/-- `twilio_rates.get(call_type, twilio_rates.get("outbound_default", 0.014))`. -/
def twilioCallRate (call_type : String) : ℚ :=
  match lookupA call_type twilioRates with
  | some (RateEntry.price r) => r
  | some (RateEntry.perToken _ _) => 0
  | none =>
    match lookupA "outbound_default" twilioRates with
    | some (RateEntry.price r) => r
    | _ => 0.014

/-- `twilio_rates.get("recording", 0.0025)`. -/
def twilioRecordingRate : ℚ :=
  match lookupA "recording" twilioRates with
  | some (RateEntry.price r) => r
  | _ => 0.0025

/-- `add_telephony_cost`. -/
def add_telephony_cost (t : UnifiedCostTracker) (call_id : String)
    (call_duration_seconds : ℚ) (call_type : String)
    (recording_enabled : Bool) (real_cost_data : Option RealCostData) :
    UnifiedCostTracker :=
  match lookupA call_id t.call_costs with
  | none => t
  | some cb =>
    let cb0 := { cb with call_duration_seconds := call_duration_seconds }
    let useReal : Bool :=
      match real_cost_data with
      | some rcd => decide (rcd.data_source = "twilio_api")
      | none => false
    let total_telephony_cost : ℚ :=
      if useReal then
        let rcd := real_cost_data.getD {}
        let recording_cost :=
          if recording_enabled then rcd.duration_minutes * twilioRecordingRate
          else 0
        rcd.cost_usd + recording_cost
      else
        let call_duration_minutes := call_duration_seconds / 60
        let call_cost := call_duration_minutes * twilioCallRate call_type
        let recording_cost :=
          if recording_enabled then call_duration_minutes * twilioRecordingRate
          else 0
        call_cost + recording_cost
    let cb1 := { cb0 with telephony_cost := total_telephony_cost }
    { t with call_costs :=
        insertA call_id (update_total_cost cb1) t.call_costs }

/-- `set_transcript_metadata`. -/
def set_transcript_metadata (t : UnifiedCostTracker) (call_id : String)
    (transcript : String) : UnifiedCostTracker :=
  match lookupA call_id t.call_metrics with
  | none => t
  | some metrics =>
    let newMetrics :=
      insertA call_id
        ({ metrics with
          transcript_characters := transcript.data.length,
          transcript_words := countWords transcript.data })
        t.call_metrics
    { t with call_metrics := newMetrics }

/-- `update_call_metadata`. -/
def update_call_metadata (t : UnifiedCostTracker) (call_id : String)
    (duration_seconds : ℚ) (transcript_text : String) : UnifiedCostTracker :=
  match lookupA call_id t.call_metrics with
  | none => t
  | some metrics =>
    let newMetrics :=
      insertA call_id
        ({ metrics with
          call_duration_seconds := duration_seconds,
          transcript_characters := transcript_text.data.length,
          transcript_words :=
            if transcript_text = "" then 0
            else countWords transcript_text.data })
        t.call_metrics
    { t with call_metrics := newMetrics }

/-- The bot character count computed by `estimate_usage_from_transcript`:
lines prefixed `BOT:` are stripped of the 4-character prefix and of
surrounding whitespace, joined with single spaces, and measured. -/
def botCharacterCount (transcript_text : String) : ℕ :=
  let bot_lines :=
    (splitOnChar '\n' transcript_text.data).filter
      (fun line => isPrefixOfB "BOT:".data line)
  (List.intercalate [' ']
    (bot_lines.map (fun line => stripChars (line.drop 4)))).length

/-- `estimate_usage_from_transcript`.  The Python code reads
`metrics.synthesis.usage_count` from the live object after the first
`add_transcription_usage` call, which never touches the synthesis field, so
reading it from the initially fetched record is equivalent. -/
def estimate_usage_from_transcript (t : UnifiedCostTracker) (call_id : String)
    (transcript_text : String) (call_duration_seconds : ℚ) :
    UnifiedCostTracker :=
  match lookupA call_id t.call_metrics with
  | none => t
  | some metrics =>
    let t1 :=
      if metrics.transcription.usage_count = 0 then
        add_transcription_usage t call_id call_duration_seconds none
          "speech_recognition_from_transcript"
      else t
    if metrics.synthesis.usage_count = 0 then
      let bot_character_count := botCharacterCount transcript_text
      if 0 < bot_character_count then
        add_synthesis_usage t1 call_id bot_character_count none
          "agent_responses_from_transcript"
      else t1
    else t1

/-- `cleanup_call`: pop the id from all three dicts (never raises). -/
def cleanup_call (t : UnifiedCostTracker) (call_id : String) :
    UnifiedCostTracker :=
  { call_metrics := eraseA call_id t.call_metrics,
    call_costs := eraseA call_id t.call_costs,
    call_start_times := eraseA call_id t.call_start_times }

/-! ## The recomputation path of `get_comprehensive_cost_breakdown`

`_calculate_transcription_cost` uses its own hardcoded rate table, separate
from `self.pricing_rates`. -/

/-- The local `rates` dict of `_calculate_transcription_cost`. -/
def calcTransRates : List (String × List (String × ℚ)) :=
  [("deepgram", [("nova-2", 0.0043), ("nova", 0.0043), ("default", 0.0043)]),
   ("default", [("default", 0.005)])]

/-- `_calculate_transcription_cost`. -/
def calculate_transcription_cost (metrics : CallMetrics) : ℚ :=
  if metrics.transcription.total_usage ≤ 0 then 0
  else
    let duration_minutes := metrics.transcription.total_usage / 60
    let provider := lowerS metrics.transcription.provider
    let model :=
      if metrics.transcription.model = "" then "default"
      else lowerS metrics.transcription.model
    let provider_rates :=
      (lookupA provider calcTransRates).getD
        ((lookupA "default" calcTransRates).getD [])
    let rate := (lookupA model provider_rates).getD 0.005
    duration_minutes * rate

/-! ## CustomEventsManager per-call state (simple_webhooks.py)

Only the per-call dicts and the module-global tracker matter for the claims;
`cost_calculator` and `usage_tracker` both alias the one
`unified_cost_tracker` instance, modelled by the `tracker` field. -/

/-- Per-call state of `CustomEventsManager` (`voicemail_configs` is created
lazily by `store_voicemail_config`; an absent attribute behaves like the
empty dict here). -/
structure CustomEventsManager where
  call_start_times : List (String × String) := []
  call_tags : List (String × (List String × List String)) := []
  call_outcomes : List (String × List (String × String)) := []
  voicemail_messages : List (String × String) := []
  transfer_configs : List (String × (Bool × Option String × String)) := []
  call_transcripts : List (String × String) := []
  call_sids : List (String × String) := []
  call_phone_numbers : List (String × (String × String)) := []
  voicemail_configs : List (String × (Bool × String × Bool)) := []
  tracker : UnifiedCostTracker := {}
deriving DecidableEq

/-- The final cleanup block of `_handle_transcript_complete` (after the
TRANSCRIPT_COMPLETE webhook is sent): pop `call_tags`, `call_transcripts`
and `call_sids`, then `cost_calculator.cleanup_call` and
`usage_tracker.cleanup_call` on the shared tracker. -/
def transcript_complete_cleanup (em : CustomEventsManager)
    (conversation_id : String) : CustomEventsManager :=
  { em with
    call_tags := eraseA conversation_id em.call_tags,
    call_transcripts := eraseA conversation_id em.call_transcripts,
    call_sids := eraseA conversation_id em.call_sids,
    tracker :=
      cleanup_call (cleanup_call em.tracker conversation_id)
        conversation_id }

/-! ## Outcome detectors (simple_webhooks.py) -/

/-- The `strong_indicators` list of `_detect_voicemail_from_transcript`. -/
def strong_indicators : List String :=
  ["voice mail", "voicemail", "voice message",
   "please record your message", "at the tone", "leave a message",
   "after the beep", "record your message", "mailbox is full",
   "forwarded to voice mail"]

/-- The `weak_indicators` list of `_detect_voicemail_from_transcript`. -/
def weak_indicators : List String :=
  ["not available", "can\x27t come to the phone", "please leave",
   "subscriber you have called", "the person you\x27re trying to reach",
   "is not available at this time", "please try your call again"]

/-- Whether some strong indicator occurs in the lower-cased transcript. -/
def hasStrongIndicator (transcript : String) : Bool :=
  strong_indicators.any
    (fun ind => occurs ind.data (transcript.data.map Char.toLower))

/-- The number of (distinct) weak indicator phrases occurring in the
lower-cased transcript. -/
def weakIndicatorCount (transcript : String) : ℕ :=
  weak_indicators.countP
    (fun ind => occurs ind.data (transcript.data.map Char.toLower))

/-- `_detect_voicemail_from_transcript`. -/
def detect_voicemail_from_transcript (transcript : String) : Bool :=
  if transcript.data = [] then false
  else if hasStrongIndicator transcript then true
  else if 2 ≤ weakIndicatorCount transcript then true
  else false

/-- The `rejection_reasons` list of `_detect_call_rejection`. -/
def rejection_reasons : List String :=
  ["busy", "declined", "rejected", "no-answer", "failed", "cancel",
   "user-busy", "call-rejected", "unavailable", "timeout",
   "unreachable", "not-answered", "caller-cancelled",
   "recipient-busy", "line-busy", "network-unreachable",
   "call-failed", "invalid-number", "blocked", "service-unavailable",
   "temporary-failure", "destination-unreachable"]

/-- The Twilio status vocabulary checked against the status attributes of
the event in `_detect_call_rejection`. -/
def rejection_statuses : List String :=
  ["busy", "no-answer", "failed", "canceled", "declined"]

/-- `_detect_call_rejection`.  `status_values` are the values of whichever
of the attributes `status`, `call_status`, `callStatus` the (external)
`PhoneCallEndedEvent` object carries; the loop with break over them is
equivalent to an any. -/
def detect_call_rejection (duration_seconds : ℤ) (end_reason : String)
    (status_values : List String) : Bool :=
  let end_reason_lower := lowerS end_reason
  let reason_rejected :=
    rejection_reasons.any (fun r => occurs r.data end_reason_lower.data)
  let status_rejected :=
    status_values.any
      (fun sv => rejection_statuses.any (fun st => lowerS sv == st))
  let duration_rejected := decide (duration_seconds < 10)
  let brief_call := decide (duration_seconds < 20)
  reason_rejected || status_rejected ||
    (duration_rejected &&
      !(end_reason_lower == "completed" || end_reason_lower == "hangup")) ||
    (brief_call &&
      (end_reason_lower == "busy" || end_reason_lower == "failed" ||
        end_reason_lower == "canceled"))

/-! ## The operation alphabet and reachable tracker states -/

/-- The mutating tracker operations. -/
inductive Op where
  | start (call_id tp tm sp sm lp lm : String) (now : ℚ)
  | addTrans (call_id : String) (d : ℚ) (model : Option String)
      (context : String)
  | addSynth (call_id : String) (n : ℕ) (model : Option String)
      (context : String)
  | addLLM (call_id : String) (i o : ℕ) (model : Option String)
      (context : String)
  | addTel (call_id : String) (d : ℚ) (call_type : String)
      (recording : Bool) (rcd : Option RealCostData)
  | setMeta (call_id : String) (txt : String)
  | updMeta (call_id : String) (d : ℚ) (txt : String)
  | estimate (call_id : String) (txt : String) (d : ℚ)
  | cleanup (call_id : String)

/-- Apply one operation. -/
def step (t : UnifiedCostTracker) : Op → UnifiedCostTracker
  | .start call_id tp tm sp sm lp lm now =>
      start_call_tracking t call_id tp tm sp sm lp lm now
  | .addTrans call_id d model context =>
      add_transcription_usage t call_id d model context
  | .addSynth call_id n model context =>
      add_synthesis_usage t call_id n model context
  | .addLLM call_id i o model context =>
      add_llm_usage t call_id i o model context
  | .addTel call_id d call_type recording rcd =>
      add_telephony_cost t call_id d call_type recording rcd
  | .setMeta call_id txt => set_transcript_metadata t call_id txt
  | .updMeta call_id d txt => update_call_metadata t call_id d txt
  | .estimate call_id txt d =>
      estimate_usage_from_transcript t call_id txt d
  | .cleanup call_id => cleanup_call t call_id

/-- The tracker state after a sequence of operations from the freshly
constructed tracker. -/
def run (ops : List Op) : UnifiedCostTracker :=
  ops.foldl step {}

/-- Modelled from the spec: the synthesis-character estimate the claim for
`estimate_usage_from_transcript` describes, namely the character count of
all `BOT:`-prefixed lines of the transcript with the 4-character prefix
stripped before counting (no whitespace trimming and no join separators). -/
def specBotCharacterCount (transcript_text : String) : ℕ :=
  (((splitOnChar '\n' transcript_text.data).filter
      (fun line => isPrefixOfB "BOT:".data line)).map
    (fun line => (line.drop 4).length)).sum

/-! ## Invariant predicates and concrete states used by the theorems -/

/-- The cost-breakdown invariant: the total is the sum of the four
component costs. -/
def cbOK (cb : CostBreakdown) : Prop :=
  cb.total_cost =
    cb.transcription_cost + cb.synthesis_cost + cb.llm_cost +
      cb.telephony_cost

/-- Every breakdown stored in a `call_costs` dict satisfies `cbOK`. -/
def costsOK (l : List (String × CostBreakdown)) : Prop :=
  ∀ id cb, lookupA id l = some cb → cbOK cb

/-- A service with no recorded usage events has zero accumulated usage. -/
def mOK (m : CallMetrics) : Prop :=
  (m.transcription.usage_count = 0 → m.transcription.total_usage = 0) ∧
  (m.synthesis.usage_count = 0 → m.synthesis.total_usage = 0)

/-- Every metrics record stored in a `call_metrics` dict satisfies `mOK`. -/
def metricsOK (l : List (String × CallMetrics)) : Prop :=
  ∀ id m, lookupA id l = some m → mOK m

/-- Registration of call c1 with the default provider configuration. -/
def startC1 : Op :=
  .start "c1" "deepgram" "nova-2" "eleven_labs" "eleven_flash_v2" "openai"
    "gpt-4o-mini" 0

/-- A manager state in which call c1 has an entry in every per-call dict,
as after a connected call that stored tags, outcome, voicemail, transfer
and phone-number data and whose tracker registered the call. -/
def c4Manager : CustomEventsManager :=
  { call_start_times := [("c1", "2026-01-01T00:00:00")],
    call_tags := [("c1", (["vip"], ["auto"]))],
    call_outcomes := [("c1", [("is_voicemail", "False")])],
    voicemail_messages := [("c1", "msg")],
    transfer_configs := [("c1", (true, some "+15550000000", "hold"))],
    call_transcripts := [("c1", "BOT: hi")],
    call_sids := [("c1", "CA123")],
    call_phone_numbers := [("c1", ("+15550000001", "+15550000002"))],
    voicemail_configs := [("c1", (true, "msg", true))],
    tracker := run [startC1] }

/-- The tracker after registering c1 and recording a 30-second
transcript-estimated transcription event. -/
def c2State : UnifiedCostTracker :=
  run [startC1,
    Op.addTrans "c1" 30 none "speech_recognition_from_transcript"]

/-- The tracker after registering c1 with a provider configuration absent
from the pricing table. -/
def c6State : UnifiedCostTracker :=
  run [Op.start "c1" "unknownco" "m1" "unknownco" "m2" "unknownco" "m3" 0]

/-! # Theorems -/

/-! ## Association-list lemmas -/

theorem lookupA_eraseA {β : Type} (k k' : String) (l : List (String × β)) :
    lookupA k' (eraseA k l) = if k' = k then none else lookupA k' l := by
  induction l with
  | nil => simp [eraseA, lookupA]
  | cons p rest ih =>
    obtain ⟨k0, v0⟩ := p
    by_cases h0 : k0 = k
    · subst h0
      have he : eraseA k0 ((k0, v0) :: rest) = eraseA k0 rest := by
        simp [eraseA]
      rw [he, ih]
      by_cases h1 : k' = k0
      · simp [h1]
      · simp [lookupA, h1]
    · simp only [eraseA, if_neg h0, lookupA]
      by_cases h1 : k' = k0
      · subst h1
        simp [lookupA, h0]
      · simp only [if_neg h1]
        exact ih

theorem lookupA_insertA {β : Type} (k k' : String) (v : β)
    (l : List (String × β)) :
    lookupA k' (insertA k v l) = if k' = k then some v else lookupA k' l := by
  simp only [insertA, lookupA]
  by_cases h1 : k' = k
  · simp [h1]
  · simp [h1, lookupA_eraseA]

theorem lookupA_insertA_self {β : Type} (k : String) (v : β)
    (l : List (String × β)) : lookupA k (insertA k v l) = some v := by
  simp [lookupA_insertA]

/-! ## Shape of the per-operation updates to the two dicts -/

theorem addTrans_costs_shape (t : UnifiedCostTracker) (id : String) (d : ℚ)
    (mo : Option String) (ctx : String) :
    (add_transcription_usage t id d mo ctx).call_costs = t.call_costs ∨
    ∃ cb, (add_transcription_usage t id d mo ctx).call_costs =
      insertA id (update_total_cost cb) t.call_costs := by
  unfold add_transcription_usage
  cases hm : lookupA id t.call_metrics with
  | none => exact Or.inl rfl
  | some m =>
    dsimp only
    split
    · exact Or.inl rfl
    · cases hcb : lookupA id t.call_costs with
      | none => exact Or.inl rfl
      | some cb => exact Or.inr ⟨_, rfl⟩

theorem addSynth_costs_shape (t : UnifiedCostTracker) (id : String) (n : ℕ)
    (mo : Option String) (ctx : String) :
    (add_synthesis_usage t id n mo ctx).call_costs = t.call_costs ∨
    ∃ cb, (add_synthesis_usage t id n mo ctx).call_costs =
      insertA id (update_total_cost cb) t.call_costs := by
  unfold add_synthesis_usage
  cases hm : lookupA id t.call_metrics with
  | none => exact Or.inl rfl
  | some m =>
    dsimp only
    split
    · exact Or.inl rfl
    · cases hcb : lookupA id t.call_costs with
      | none => exact Or.inl rfl
      | some cb => exact Or.inr ⟨_, rfl⟩

theorem addLLM_costs_shape (t : UnifiedCostTracker) (id : String) (i o : ℕ)
    (mo : Option String) (ctx : String) :
    (add_llm_usage t id i o mo ctx).call_costs = t.call_costs ∨
    ∃ cb, (add_llm_usage t id i o mo ctx).call_costs =
      insertA id (update_total_cost cb) t.call_costs := by
  unfold add_llm_usage
  cases hm : lookupA id t.call_metrics with
  | none => exact Or.inl rfl
  | some m =>
    dsimp only
    split
    · exact Or.inl rfl
    · cases hcb : lookupA id t.call_costs with
      | none => exact Or.inl rfl
      | some cb => exact Or.inr ⟨_, rfl⟩

theorem addTel_costs_shape (t : UnifiedCostTracker) (id : String) (d : ℚ)
    (ct : String) (rec : Bool) (rcd : Option RealCostData) :
    (add_telephony_cost t id d ct rec rcd).call_costs = t.call_costs ∨
    ∃ cb, (add_telephony_cost t id d ct rec rcd).call_costs =
      insertA id (update_total_cost cb) t.call_costs := by
  unfold add_telephony_cost
  cases hcb : lookupA id t.call_costs with
  | none => exact Or.inl rfl
  | some cb => exact Or.inr ⟨_, rfl⟩

theorem setMeta_costs (t : UnifiedCostTracker) (id : String) (txt : String) :
    (set_transcript_metadata t id txt).call_costs = t.call_costs := by
  unfold set_transcript_metadata
  cases hm : lookupA id t.call_metrics <;> rfl

theorem updMeta_costs (t : UnifiedCostTracker) (id : String) (d : ℚ)
    (txt : String) :
    (update_call_metadata t id d txt).call_costs = t.call_costs := by
  unfold update_call_metadata
  cases hm : lookupA id t.call_metrics <;> rfl

theorem addTrans_metrics_shape (t : UnifiedCostTracker) (id : String) (d : ℚ)
    (mo : Option String) (ctx : String) :
    (add_transcription_usage t id d mo ctx).call_metrics = t.call_metrics ∨
    ∃ m tr2, lookupA id t.call_metrics = some m ∧
      (add_transcription_usage t id d mo ctx).call_metrics =
        insertA id ({ m with transcription := tr2 }) t.call_metrics ∧
      tr2.usage_count ≠ 0 := by
  unfold add_transcription_usage
  cases hm : lookupA id t.call_metrics with
  | none => exact Or.inl rfl
  | some m =>
    dsimp only
    split
    · exact Or.inl rfl
    · cases hcb : lookupA id t.call_costs with
      | none => exact Or.inr ⟨m, _, rfl, rfl, Nat.succ_ne_zero _⟩
      | some cb => exact Or.inr ⟨m, _, rfl, rfl, Nat.succ_ne_zero _⟩

theorem addSynth_metrics_shape (t : UnifiedCostTracker) (id : String) (n : ℕ)
    (mo : Option String) (ctx : String) :
    (add_synthesis_usage t id n mo ctx).call_metrics = t.call_metrics ∨
    ∃ m sy2, lookupA id t.call_metrics = some m ∧
      (add_synthesis_usage t id n mo ctx).call_metrics =
        insertA id ({ m with synthesis := sy2 }) t.call_metrics ∧
      sy2.usage_count ≠ 0 := by
  unfold add_synthesis_usage
  cases hm : lookupA id t.call_metrics with
  | none => exact Or.inl rfl
  | some m =>
    dsimp only
    split
    · exact Or.inl rfl
    · cases hcb : lookupA id t.call_costs with
      | none => exact Or.inr ⟨m, _, rfl, rfl, Nat.succ_ne_zero _⟩
      | some cb => exact Or.inr ⟨m, _, rfl, rfl, Nat.succ_ne_zero _⟩

theorem addLLM_metrics_shape (t : UnifiedCostTracker) (id : String) (i o : ℕ)
    (mo : Option String) (ctx : String) :
    (add_llm_usage t id i o mo ctx).call_metrics = t.call_metrics ∨
    ∃ m l1, lookupA id t.call_metrics = some m ∧
      (add_llm_usage t id i o mo ctx).call_metrics =
        insertA id ({ m with llm := l1 }) t.call_metrics := by
  unfold add_llm_usage
  cases hm : lookupA id t.call_metrics with
  | none => exact Or.inl rfl
  | some m =>
    dsimp only
    split
    · exact Or.inl rfl
    · cases hcb : lookupA id t.call_costs with
      | none => exact Or.inr ⟨m, _, rfl, rfl⟩
      | some cb => exact Or.inr ⟨m, _, rfl, rfl⟩

theorem addTel_metrics (t : UnifiedCostTracker) (id : String) (d : ℚ)
    (ct : String) (rec : Bool) (rcd : Option RealCostData) :
    (add_telephony_cost t id d ct rec rcd).call_metrics = t.call_metrics := by
  unfold add_telephony_cost
  cases hcb : lookupA id t.call_costs <;> rfl

theorem setMeta_metrics_shape (t : UnifiedCostTracker) (id : String)
    (txt : String) :
    (set_transcript_metadata t id txt).call_metrics = t.call_metrics ∨
    ∃ m, lookupA id t.call_metrics = some m ∧
      ∃ m2 : CallMetrics,
        (set_transcript_metadata t id txt).call_metrics =
          insertA id m2 t.call_metrics ∧
        m2.transcription = m.transcription ∧ m2.synthesis = m.synthesis := by
  unfold set_transcript_metadata
  cases hm : lookupA id t.call_metrics with
  | none => exact Or.inl rfl
  | some m => exact Or.inr ⟨m, rfl, _, rfl, rfl, rfl⟩

theorem updMeta_metrics_shape (t : UnifiedCostTracker) (id : String) (d : ℚ)
    (txt : String) :
    (update_call_metadata t id d txt).call_metrics = t.call_metrics ∨
    ∃ m, lookupA id t.call_metrics = some m ∧
      ∃ m2 : CallMetrics,
        (update_call_metadata t id d txt).call_metrics =
          insertA id m2 t.call_metrics ∧
        m2.transcription = m.transcription ∧ m2.synthesis = m.synthesis := by
  unfold update_call_metadata
  cases hm : lookupA id t.call_metrics with
  | none => exact Or.inl rfl
  | some m => exact Or.inr ⟨m, rfl, _, rfl, rfl, rfl⟩

/-! ## The cost invariant (claim C3 machinery) -/

theorem cbOK_update_total_cost (cb : CostBreakdown) :
    cbOK (update_total_cost cb) := rfl

theorem costsOK_insert {l : List (String × CostBreakdown)} (h : costsOK l)
    {k : String} {cb : CostBreakdown} (hcb : cbOK cb) :
    costsOK (insertA k cb l) := by
  intro id' cb' hl
  rw [lookupA_insertA] at hl
  by_cases hid : id' = k
  · rw [if_pos hid] at hl
    cases hl
    exact hcb
  · rw [if_neg hid] at hl
    exact h _ _ hl

theorem costsOK_erase {l : List (String × CostBreakdown)} (h : costsOK l)
    (k : String) : costsOK (eraseA k l) := by
  intro id' cb' hl
  rw [lookupA_eraseA] at hl
  by_cases hid : id' = k
  · rw [if_pos hid] at hl
    cases hl
  · rw [if_neg hid] at hl
    exact h _ _ hl

theorem costsOK_addTrans {t : UnifiedCostTracker} (h : costsOK t.call_costs)
    (id : String) (d : ℚ) (mo : Option String) (ctx : String) :
    costsOK (add_transcription_usage t id d mo ctx).call_costs := by
  rcases addTrans_costs_shape t id d mo ctx with he | ⟨cb, he⟩
  · rw [he]; exact h
  · rw [he]; exact costsOK_insert h (cbOK_update_total_cost cb)

theorem costsOK_addSynth {t : UnifiedCostTracker} (h : costsOK t.call_costs)
    (id : String) (n : ℕ) (mo : Option String) (ctx : String) :
    costsOK (add_synthesis_usage t id n mo ctx).call_costs := by
  rcases addSynth_costs_shape t id n mo ctx with he | ⟨cb, he⟩
  · rw [he]; exact h
  · rw [he]; exact costsOK_insert h (cbOK_update_total_cost cb)

theorem costsOK_addLLM {t : UnifiedCostTracker} (h : costsOK t.call_costs)
    (id : String) (i o : ℕ) (mo : Option String) (ctx : String) :
    costsOK (add_llm_usage t id i o mo ctx).call_costs := by
  rcases addLLM_costs_shape t id i o mo ctx with he | ⟨cb, he⟩
  · rw [he]; exact h
  · rw [he]; exact costsOK_insert h (cbOK_update_total_cost cb)

theorem costsOK_addTel {t : UnifiedCostTracker} (h : costsOK t.call_costs)
    (id : String) (d : ℚ) (ct : String) (rec : Bool)
    (rcd : Option RealCostData) :
    costsOK (add_telephony_cost t id d ct rec rcd).call_costs := by
  rcases addTel_costs_shape t id d ct rec rcd with he | ⟨cb, he⟩
  · rw [he]; exact h
  · rw [he]; exact costsOK_insert h (cbOK_update_total_cost cb)

theorem costsOK_estimate {t : UnifiedCostTracker} (h : costsOK t.call_costs)
    (id : String) (txt : String) (d : ℚ) :
    costsOK (estimate_usage_from_transcript t id txt d).call_costs := by
  unfold estimate_usage_from_transcript
  cases hm : lookupA id t.call_metrics with
  | none => exact h
  | some m =>
    have ht1 : costsOK ((if m.transcription.usage_count = 0 then
        add_transcription_usage t id d none
          "speech_recognition_from_transcript"
      else t)).call_costs := by
      split
      · exact costsOK_addTrans h _ _ _ _
      · exact h
    dsimp only
    split
    · split
      · exact costsOK_addSynth ht1 _ _ _ _
      · exact ht1
    · exact ht1

theorem costsOK_step {t : UnifiedCostTracker} (h : costsOK t.call_costs)
    (op : Op) : costsOK (step t op).call_costs := by
  cases op with
  | start call_id tp tm sp sm lp lm now =>
    refine costsOK_insert h ?_
    simp [cbOK]
  | addTrans call_id d mo ctx => exact costsOK_addTrans h _ _ _ _
  | addSynth call_id n mo ctx => exact costsOK_addSynth h _ _ _ _
  | addLLM call_id i o mo ctx => exact costsOK_addLLM h _ _ _ _ _
  | addTel call_id d ct rec rcd => exact costsOK_addTel h _ _ _ _ _
  | setMeta call_id txt => rw [step, setMeta_costs]; exact h
  | updMeta call_id d txt => rw [step, updMeta_costs]; exact h
  | estimate call_id txt d => exact costsOK_estimate h _ _ _
  | cleanup call_id => exact costsOK_erase h _

theorem costsOK_foldl (ops : List Op) :
    ∀ t : UnifiedCostTracker, costsOK t.call_costs →
      costsOK (List.foldl step t ops).call_costs := by
  induction ops with
  | nil => exact fun t h => h
  | cons op rest ih => exact fun t h => ih _ (costsOK_step h op)

theorem costsOK_run (ops : List Op) : costsOK (run ops).call_costs := by
  refine costsOK_foldl ops {} ?_
  intro id cb h
  cases h

/-! ## The zero-usage invariant (claim C9 machinery) -/

theorem metricsOK_insert {l : List (String × CallMetrics)} (h : metricsOK l)
    {k : String} {m : CallMetrics} (hm : mOK m) : metricsOK (insertA k m l) := by
  intro id' m' hl
  rw [lookupA_insertA] at hl
  by_cases hid : id' = k
  · rw [if_pos hid] at hl
    cases hl
    exact hm
  · rw [if_neg hid] at hl
    exact h _ _ hl

theorem metricsOK_erase {l : List (String × CallMetrics)} (h : metricsOK l)
    (k : String) : metricsOK (eraseA k l) := by
  intro id' m' hl
  rw [lookupA_eraseA] at hl
  by_cases hid : id' = k
  · rw [if_pos hid] at hl
    cases hl
  · rw [if_neg hid] at hl
    exact h _ _ hl

theorem metricsOK_addTrans {t : UnifiedCostTracker}
    (h : metricsOK t.call_metrics) (id : String) (d : ℚ) (mo : Option String)
    (ctx : String) :
    metricsOK (add_transcription_usage t id d mo ctx).call_metrics := by
  rcases addTrans_metrics_shape t id d mo ctx with he | ⟨m, tr2, hm, he, hc⟩
  · rw [he]; exact h
  · rw [he]
    exact metricsOK_insert h ⟨fun h0 => absurd h0 hc, (h _ _ hm).2⟩

theorem metricsOK_addSynth {t : UnifiedCostTracker}
    (h : metricsOK t.call_metrics) (id : String) (n : ℕ) (mo : Option String)
    (ctx : String) :
    metricsOK (add_synthesis_usage t id n mo ctx).call_metrics := by
  rcases addSynth_metrics_shape t id n mo ctx with he | ⟨m, sy2, hm, he, hc⟩
  · rw [he]; exact h
  · rw [he]
    exact metricsOK_insert h ⟨(h _ _ hm).1, fun h0 => absurd h0 hc⟩

theorem metricsOK_addLLM {t : UnifiedCostTracker}
    (h : metricsOK t.call_metrics) (id : String) (i o : ℕ)
    (mo : Option String) (ctx : String) :
    metricsOK (add_llm_usage t id i o mo ctx).call_metrics := by
  rcases addLLM_metrics_shape t id i o mo ctx with he | ⟨m, l1, hm, he⟩
  · rw [he]; exact h
  · rw [he]
    exact metricsOK_insert h ⟨(h _ _ hm).1, (h _ _ hm).2⟩

theorem metricsOK_estimate {t : UnifiedCostTracker}
    (h : metricsOK t.call_metrics) (id : String) (txt : String) (d : ℚ) :
    metricsOK (estimate_usage_from_transcript t id txt d).call_metrics := by
  unfold estimate_usage_from_transcript
  cases hm : lookupA id t.call_metrics with
  | none => exact h
  | some m =>
    have ht1 : metricsOK ((if m.transcription.usage_count = 0 then
        add_transcription_usage t id d none
          "speech_recognition_from_transcript"
      else t)).call_metrics := by
      split
      · exact metricsOK_addTrans h _ _ _ _
      · exact h
    dsimp only
    split
    · split
      · exact metricsOK_addSynth ht1 _ _ _ _
      · exact ht1
    · exact ht1

theorem metricsOK_step {t : UnifiedCostTracker} (h : metricsOK t.call_metrics)
    (op : Op) : metricsOK (step t op).call_metrics := by
  cases op with
  | start call_id tp tm sp sm lp lm now =>
    exact metricsOK_insert h ⟨fun _ => rfl, fun _ => rfl⟩
  | addTrans call_id d mo ctx => exact metricsOK_addTrans h _ _ _ _
  | addSynth call_id n mo ctx => exact metricsOK_addSynth h _ _ _ _
  | addLLM call_id i o mo ctx => exact metricsOK_addLLM h _ _ _ _ _
  | addTel call_id d ct rec rcd => rw [step, addTel_metrics]; exact h
  | setMeta call_id txt =>
    rcases setMeta_metrics_shape t call_id txt with he | ⟨m, hm, m2, he, h1, h2⟩
    · rw [step, he]; exact h
    · rw [step, he]
      refine metricsOK_insert h ⟨?_, ?_⟩
      · rw [h1]; exact (h _ _ hm).1
      · rw [h2]; exact (h _ _ hm).2
  | updMeta call_id d txt =>
    rcases updMeta_metrics_shape t call_id d txt with he | ⟨m, hm, m2, he, h1, h2⟩
    · rw [step, he]; exact h
    · rw [step, he]
      refine metricsOK_insert h ⟨?_, ?_⟩
      · rw [h1]; exact (h _ _ hm).1
      · rw [h2]; exact (h _ _ hm).2
  | estimate call_id txt d => exact metricsOK_estimate h _ _ _
  | cleanup call_id => exact metricsOK_erase h _

theorem metricsOK_foldl (ops : List Op) :
    ∀ t : UnifiedCostTracker, metricsOK t.call_metrics →
      metricsOK (List.foldl step t ops).call_metrics := by
  induction ops with
  | nil => exact fun t h => h
  | cons op rest ih => exact fun t h => ih _ (metricsOK_step h op)

theorem metricsOK_run (ops : List Op) : metricsOK (run ops).call_metrics := by
  refine metricsOK_foldl ops {} ?_
  intro id m h
  cases h

/-! ## Exact effect of the usage-add operations on a registered call -/

theorem addTrans_effect_noreset {t : UnifiedCostTracker} {id : String}
    {m : CallMetrics} {cb : CostBreakdown} (d : ℚ) (mo : Option String)
    (ctx : String)
    (hm : lookupA id t.call_metrics = some m)
    (hcb : lookupA id t.call_costs = some cb)
    (hskip : ¬(ctx = "speech_recognition_from_transcript" ∧
      0 < m.transcription.usage_count))
    (hreset : ¬(ctx = "live_transcription" ∧
      m.transcription.usage_details.any
        (fun det => occurs "transcript".data det.context.data) = true)) :
    lookupA id (add_transcription_usage t id d mo ctx).call_metrics =
      some ({ m with transcription :=
        { m.transcription with
            total_usage := m.transcription.total_usage + d,
            usage_count := m.transcription.usage_count + 1,
            usage_details := m.transcription.usage_details ++
              [{ amount := d, context := ctx }] } }) ∧
    lookupA id (add_transcription_usage t id d mo ctx).call_costs =
      some (update_total_cost
        ({ cb with
            transcription_seconds := cb.transcription_seconds + d,
            transcription_cost := cb.transcription_cost + d / 60 *
              lookupFlatRate (lowerS cb.transcription_provider)
                (lowerS (pyOrStr (pyOptOrStr mo m.transcription.model)
                  "default")) })) := by
  unfold add_transcription_usage
  rw [hm]
  dsimp only
  rw [if_neg hskip, if_neg hreset]
  rw [hcb]
  dsimp only
  exact ⟨lookupA_insertA_self _ _ _, lookupA_insertA_self _ _ _⟩

theorem addTrans_effect_reset {t : UnifiedCostTracker} {id : String}
    {m : CallMetrics} {cb : CostBreakdown} (d : ℚ) (mo : Option String)
    (ctx : String)
    (hm : lookupA id t.call_metrics = some m)
    (hcb : lookupA id t.call_costs = some cb)
    (hskip : ¬(ctx = "speech_recognition_from_transcript" ∧
      0 < m.transcription.usage_count))
    (hreset : ctx = "live_transcription" ∧
      m.transcription.usage_details.any
        (fun det => occurs "transcript".data det.context.data) = true) :
    lookupA id (add_transcription_usage t id d mo ctx).call_metrics =
      some ({ m with transcription :=
        { m.transcription with
            total_usage := 0 + d,
            usage_count := 0 + 1,
            usage_details := [] ++ [{ amount := d, context := ctx }] } }) ∧
    lookupA id (add_transcription_usage t id d mo ctx).call_costs =
      some (update_total_cost
        ({ cb with
            transcription_seconds := cb.transcription_seconds + d,
            transcription_cost := cb.transcription_cost + d / 60 *
              lookupFlatRate (lowerS cb.transcription_provider)
                (lowerS (pyOrStr (pyOptOrStr mo m.transcription.model)
                  "default")) })) := by
  unfold add_transcription_usage
  rw [hm]
  dsimp only
  rw [if_neg hskip, if_pos hreset]
  rw [hcb]
  dsimp only
  exact ⟨lookupA_insertA_self _ _ _, lookupA_insertA_self _ _ _⟩

theorem addSynth_effect_noreset {t : UnifiedCostTracker} {id : String}
    {m : CallMetrics} {cb : CostBreakdown} (n : ℕ) (mo : Option String)
    (ctx : String)
    (hm : lookupA id t.call_metrics = some m)
    (hcb : lookupA id t.call_costs = some cb)
    (hskip : ¬(ctx = "agent_responses_from_transcript" ∧
      0 < m.synthesis.usage_count))
    (hreset : ¬(ctx = "live_synthesis" ∧
      m.synthesis.usage_details.any
        (fun det => occurs "transcript".data det.context.data) = true)) :
    lookupA id (add_synthesis_usage t id n mo ctx).call_metrics =
      some ({ m with synthesis :=
        { m.synthesis with
            total_usage := m.synthesis.total_usage + (n : ℚ),
            usage_count := m.synthesis.usage_count + 1,
            usage_details := m.synthesis.usage_details ++
              [{ amount := (n : ℚ), context := ctx }] } }) ∧
    lookupA id (add_synthesis_usage t id n mo ctx).call_costs =
      some (update_total_cost
        ({ cb with
            synthesis_characters := cb.synthesis_characters + n,
            synthesis_cost := cb.synthesis_cost + (n : ℚ) *
              lookupFlatRate (lowerS cb.synthesis_provider)
                (lowerS (pyOrStr (pyOptOrStr mo m.synthesis.model)
                  "default")) })) := by
  unfold add_synthesis_usage
  rw [hm]
  dsimp only
  rw [if_neg hskip, if_neg hreset]
  rw [hcb]
  dsimp only
  exact ⟨lookupA_insertA_self _ _ _, lookupA_insertA_self _ _ _⟩

theorem addLLM_effect_noskip {t : UnifiedCostTracker} {id : String}
    {m : CallMetrics} {cb : CostBreakdown} (i o : ℕ) (mo : Option String)
    (ctx : String)
    (hm : lookupA id t.call_metrics = some m)
    (hcb : lookupA id t.call_costs = some cb)
    (hskip : ¬(ctx = "agent_conversation" ∧
      m.llm.usage_contexts.any
        (fun c => occurs "live_agent_response".data c.data) = true)) :
    lookupA id (add_llm_usage t id i o mo ctx).call_metrics =
      some ({ m with llm :=
        { m.llm with
            input_tokens := m.llm.input_tokens + i,
            output_tokens := m.llm.output_tokens + o,
            total_tokens := m.llm.total_tokens + (i + o),
            requests_count := m.llm.requests_count + 1,
            usage_contexts := m.llm.usage_contexts ++
              [ctx ++ ":" ++ toString i ++ "/" ++ toString o] } }) ∧
    lookupA id (add_llm_usage t id i o mo ctx).call_costs =
      some (update_total_cost
        ({ cb with
            llm_input_tokens := cb.llm_input_tokens + i,
            llm_output_tokens := cb.llm_output_tokens + o,
            llm_cost := cb.llm_cost +
              ((i : ℚ) * (lookupLLMRates (lowerS cb.llm_provider)
                (pyOrStr (pyOptOrStr mo m.llm.model) "gpt-4o-mini")).1 +
               (o : ℚ) * (lookupLLMRates (lowerS cb.llm_provider)
                (pyOrStr (pyOptOrStr mo m.llm.model) "gpt-4o-mini")).2) })) := by
  unfold add_llm_usage
  rw [hm]
  dsimp only
  rw [if_neg hskip]
  rw [hcb]
  dsimp only
  exact ⟨lookupA_insertA_self _ _ _, lookupA_insertA_self _ _ _⟩

theorem addTrans_metrics_effect {t : UnifiedCostTracker} {id : String}
    {m : CallMetrics} (d : ℚ) (mo : Option String) (ctx : String)
    (hm : lookupA id t.call_metrics = some m)
    (hskip : ¬(ctx = "speech_recognition_from_transcript" ∧
      0 < m.transcription.usage_count))
    (hreset : ¬(ctx = "live_transcription" ∧
      m.transcription.usage_details.any
        (fun det => occurs "transcript".data det.context.data) = true)) :
    lookupA id (add_transcription_usage t id d mo ctx).call_metrics =
      some ({ m with transcription :=
        { m.transcription with
            total_usage := m.transcription.total_usage + d,
            usage_count := m.transcription.usage_count + 1,
            usage_details := m.transcription.usage_details ++
              [{ amount := d, context := ctx }] } }) := by
  unfold add_transcription_usage
  rw [hm]
  dsimp only
  rw [if_neg hskip, if_neg hreset]
  cases hcb : lookupA id t.call_costs with
  | none => exact lookupA_insertA_self _ _ _
  | some cb => exact lookupA_insertA_self _ _ _

theorem addSynth_metrics_effect {t : UnifiedCostTracker} {id : String}
    {m : CallMetrics} (n : ℕ) (mo : Option String) (ctx : String)
    (hm : lookupA id t.call_metrics = some m)
    (hskip : ¬(ctx = "agent_responses_from_transcript" ∧
      0 < m.synthesis.usage_count))
    (hreset : ¬(ctx = "live_synthesis" ∧
      m.synthesis.usage_details.any
        (fun det => occurs "transcript".data det.context.data) = true)) :
    lookupA id (add_synthesis_usage t id n mo ctx).call_metrics =
      some ({ m with synthesis :=
        { m.synthesis with
            total_usage := m.synthesis.total_usage + (n : ℚ),
            usage_count := m.synthesis.usage_count + 1,
            usage_details := m.synthesis.usage_details ++
              [{ amount := (n : ℚ), context := ctx }] } }) := by
  unfold add_synthesis_usage
  rw [hm]
  dsimp only
  rw [if_neg hskip, if_neg hreset]
  cases hcb : lookupA id t.call_costs with
  | none => exact lookupA_insertA_self _ _ _
  | some cb => exact lookupA_insertA_self _ _ _

/-! ## Claim theorems -/

/-- Claim C3: for every registered call and after every sequence of mutating
tracker operations (start_call_tracking, add_transcription_usage,
add_synthesis_usage, add_llm_usage, add_telephony_cost, and the remaining
mutators, in any order), the stored CostBreakdown satisfies
total_cost = transcription_cost + synthesis_cost + llm_cost +
telephony_cost. -/
theorem claim_C3_total_cost_invariant (ops : List Op) (id : String)
    (cb : CostBreakdown) (h : lookupA id (run ops).call_costs = some cb) :
    cb.total_cost =
      cb.transcription_cost + cb.synthesis_cost + cb.llm_cost +
        cb.telephony_cost :=
  costsOK_run ops id cb h

unseal Rat.add Rat.mul Rat.inv Rat.ofScientific in
/-- Witness for claim C3 at a concrete operation sequence. -/
theorem claim_C3_witness :
    ((lookupA "c1" (run [startC1,
        Op.addTrans "c1" 30 none "live_transcription",
        Op.addTel "c1" 60 "outbound_default" true none]).call_costs).getD
          {}).total_cost =
      ((lookupA "c1" (run [startC1,
        Op.addTrans "c1" 30 none "live_transcription",
        Op.addTel "c1" 60 "outbound_default" true none]).call_costs).getD
          {}).transcription_cost +
      ((lookupA "c1" (run [startC1,
        Op.addTrans "c1" 30 none "live_transcription",
        Op.addTel "c1" 60 "outbound_default" true none]).call_costs).getD
          {}).synthesis_cost +
      ((lookupA "c1" (run [startC1,
        Op.addTrans "c1" 30 none "live_transcription",
        Op.addTel "c1" 60 "outbound_default" true none]).call_costs).getD
          {}).llm_cost +
      ((lookupA "c1" (run [startC1,
        Op.addTrans "c1" 30 none "live_transcription",
        Op.addTel "c1" 60 "outbound_default" true none]).call_costs).getD
          {}).telephony_cost :=
  claim_C3_total_cost_invariant
    [startC1, Op.addTrans "c1" 30 none "live_transcription",
      Op.addTel "c1" 60 "outbound_default" true none] "c1" _ (by rfl)

unseal Rat.add Rat.mul Rat.inv Rat.ofScientific in
/-- Claim C10: the recomputation path of get_comprehensive_cost_breakdown
(via _calculate_transcription_cost and its own hardcoded rate table)
disagrees with the incrementally accumulated CostBreakdown: for call c1
registered with deepgram/nova-2 and 60 seconds of live transcription, the
recomputed transcription cost is 0.0043 while the accumulated
transcription_cost is 0.0036. -/
theorem claim_C10_rate_table_mismatch :
    (lookupA "c1" (run [startC1,
        Op.addTrans "c1" 60 none "live_transcription"]).call_metrics).map
      calculate_transcription_cost = some 0.0043 ∧
    (lookupA "c1" (run [startC1,
        Op.addTrans "c1" 60 none "live_transcription"]).call_costs).map
      (fun cb => cb.transcription_cost) = some 0.0036 ∧
    (0.0043 : ℚ) ≠ 0.0036 := by
  refine ⟨by decide, by decide, by decide⟩

unseal Rat.add Rat.mul Rat.inv Rat.ofScientific in
/-- Claim C1 (code bug): per-service dedup of usage sources.  For the
transcription service, [estimate 30, estimate 15] accumulates 30 (the claim
says 45: the second estimate is skipped because the skip guard tests
usage_count > 0 instead of the presence of real-time data), and
[live 30, live 15] accumulates 15 (the claim says 45: the substring test
finds "transcript" inside "live_transcription" and wrongly resets before the
second live event).  For synthesis, [estimate 30, estimate 15] accumulates
30 (same skip guard).  The two mixed orders behave as claimed. -/
theorem claim_C1_dedup_code_bug :
    ((lookupA "c1" (run [startC1,
        Op.addTrans "c1" 30 none "speech_recognition_from_transcript",
        Op.addTrans "c1" 15 none
          "speech_recognition_from_transcript"]).call_metrics).map
      (fun m => m.transcription.total_usage) = some 30 ∧
      (30 : ℚ) ≠ 30 + 15) ∧
    ((lookupA "c1" (run [startC1,
        Op.addTrans "c1" 30 none "live_transcription",
        Op.addTrans "c1" 15 none "live_transcription"]).call_metrics).map
      (fun m => m.transcription.total_usage) = some 15 ∧
      (15 : ℚ) ≠ 30 + 15) ∧
    ((lookupA "c1" (run [startC1,
        Op.addSynth "c1" 30 none "agent_responses_from_transcript",
        Op.addSynth "c1" 15 none
          "agent_responses_from_transcript"]).call_metrics).map
      (fun m => m.synthesis.total_usage) = some 30 ∧
      (30 : ℚ) ≠ 30 + 15) ∧
    ((lookupA "c1" (run [startC1,
        Op.addSynth "c1" 30 none "live_synthesis",
        Op.addSynth "c1" 15 none "live_synthesis"]).call_metrics).map
      (fun m => m.synthesis.total_usage) = some (30 + 15)) ∧
    ((lookupA "c1" (run [startC1,
        Op.addTrans "c1" 30 none "live_transcription",
        Op.addTrans "c1" 15 none
          "speech_recognition_from_transcript"]).call_metrics).map
      (fun m => m.transcription.total_usage) = some 30) ∧
    ((lookupA "c1" (run [startC1,
        Op.addTrans "c1" 30 none "speech_recognition_from_transcript",
        Op.addTrans "c1" 15 none "live_transcription"]).call_metrics).map
      (fun m => m.transcription.total_usage) = some 15) := by
  refine ⟨⟨by decide, by decide⟩, ⟨by decide, by decide⟩,
    ⟨by decide, by decide⟩, by decide, by decide, by decide⟩

/-- Claim C4 (code bug): after the TRANSCRIPT_COMPLETE handling for call c1,
the handler has purged call_tags, call_transcripts, call_sids and the three
tracker dicts, but the claimed purge of the remaining per-call dicts does
not happen: call_start_times, call_outcomes, voicemail_messages,
voicemail_configs, transfer_configs and call_phone_numbers still hold an
entry for c1. -/
theorem claim_C4_purge_incomplete :
    lookupA "c1" (transcript_complete_cleanup c4Manager "c1").call_tags =
      none ∧
    lookupA "c1"
      (transcript_complete_cleanup c4Manager "c1").call_transcripts = none ∧
    lookupA "c1" (transcript_complete_cleanup c4Manager "c1").call_sids =
      none ∧
    lookupA "c1"
      (transcript_complete_cleanup c4Manager "c1").tracker.call_metrics =
      none ∧
    lookupA "c1"
      (transcript_complete_cleanup c4Manager "c1").tracker.call_costs =
      none ∧
    lookupA "c1"
      (transcript_complete_cleanup c4Manager "c1").tracker.call_start_times =
      none ∧
    (lookupA "c1"
      (transcript_complete_cleanup c4Manager "c1").call_start_times).isSome =
      true ∧
    (lookupA "c1"
      (transcript_complete_cleanup c4Manager "c1").call_outcomes).isSome =
      true ∧
    (lookupA "c1"
      (transcript_complete_cleanup c4Manager "c1").voicemail_messages).isSome =
      true ∧
    (lookupA "c1"
      (transcript_complete_cleanup c4Manager "c1").voicemail_configs).isSome =
      true ∧
    (lookupA "c1"
      (transcript_complete_cleanup c4Manager "c1").transfer_configs).isSome =
      true ∧
    (lookupA "c1"
      (transcript_complete_cleanup c4Manager "c1").call_phone_numbers).isSome =
      true := by
  decide

/-- Claim C5: every tracker method called with an unregistered call_id is a
no-op (the guard returns before any state is touched, so nothing can raise),
and cleanup_call removes the id from all three dicts and never raises, even
for an unknown id. -/
theorem claim_C5_unregistered_noop :
    (∀ (t : UnifiedCostTracker) (call_id : String),
      lookupA call_id t.call_metrics = none →
      lookupA call_id t.call_costs = none →
      lookupA call_id t.call_start_times = none →
      ∀ (d d2 dur : ℚ) (n i o : ℕ) (mo : Option String)
        (ctx ct txt : String) (rec : Bool) (rcd : Option RealCostData),
        add_transcription_usage t call_id d mo ctx = t ∧
        add_synthesis_usage t call_id n mo ctx = t ∧
        add_llm_usage t call_id i o mo ctx = t ∧
        add_telephony_cost t call_id dur ct rec rcd = t ∧
        update_call_metadata t call_id d2 txt = t ∧
        estimate_usage_from_transcript t call_id txt d2 = t ∧
        set_transcript_metadata t call_id txt = t) ∧
    (∀ (t : UnifiedCostTracker) (call_id : String),
      lookupA call_id (cleanup_call t call_id).call_metrics = none ∧
      lookupA call_id (cleanup_call t call_id).call_costs = none ∧
      lookupA call_id (cleanup_call t call_id).call_start_times = none) := by
  constructor
  · intro t call_id h1 h2 h3 d d2 dur n i o mo ctx ct txt rec rcd
    refine ⟨?_, ?_, ?_, ?_, ?_, ?_, ?_⟩
    · unfold add_transcription_usage
      rw [h1]
    · unfold add_synthesis_usage
      rw [h1]
    · unfold add_llm_usage
      rw [h1]
    · unfold add_telephony_cost
      rw [h2]
    · unfold update_call_metadata
      rw [h1]
    · unfold estimate_usage_from_transcript
      rw [h1]
    · unfold set_transcript_metadata
      rw [h1]
  · intro t call_id
    refine ⟨?_, ?_, ?_⟩ <;> simp [cleanup_call, lookupA_eraseA]

/-- Witness for claim C5: the no-op facts at a state holding only call c1,
queried with the unknown id zzz. -/
theorem claim_C5_witness :
    add_transcription_usage (run [startC1]) "zzz" 5 none
      "live_transcription" = run [startC1] ∧
    lookupA "c1" (cleanup_call (run [startC1]) "c1").call_metrics = none :=
  ⟨(claim_C5_unregistered_noop.1 (run [startC1]) "zzz" (by rfl) (by rfl)
      (by rfl) 5 5 5 1 1 1 none "live_transcription" "outbound_default"
      "txt" false none).1,
   (claim_C5_unregistered_noop.2 (run [startC1]) "c1").1⟩

/-- Claim C6: for a registered call whose configured provider (lower-cased)
is absent from pricing_rates, each usage-add operation (called with its
default context) adds cost 0 to the corresponding CostBreakdown component
and still updates the usage counters normally; nothing raises since all
lookups fall back to rate 0. -/
theorem claim_C6_unknown_provider_rate_zero
    (t : UnifiedCostTracker) (id : String) (m : CallMetrics)
    (cb : CostBreakdown) (d : ℚ) (n i o : ℕ) (mo : Option String)
    (hm : lookupA id t.call_metrics = some m)
    (hcb : lookupA id t.call_costs = some cb)
    (hT : lookupA (lowerS cb.transcription_provider) pricing_rates = none)
    (hS : lookupA (lowerS cb.synthesis_provider) pricing_rates = none)
    (hL : lookupA (lowerS cb.llm_provider) pricing_rates = none) :
    (∃ m2 cb2,
      lookupA id
        (add_transcription_usage t id d mo "speech_to_text").call_metrics =
        some m2 ∧
      lookupA id
        (add_transcription_usage t id d mo "speech_to_text").call_costs =
        some cb2 ∧
      m2.transcription.total_usage = m.transcription.total_usage + d ∧
      m2.transcription.usage_count = m.transcription.usage_count + 1 ∧
      cb2.transcription_cost = cb.transcription_cost ∧
      cb2.transcription_seconds = cb.transcription_seconds + d) ∧
    (∃ m2 cb2,
      lookupA id
        (add_synthesis_usage t id n mo "text_to_speech").call_metrics =
        some m2 ∧
      lookupA id
        (add_synthesis_usage t id n mo "text_to_speech").call_costs =
        some cb2 ∧
      m2.synthesis.total_usage = m.synthesis.total_usage + (n : ℚ) ∧
      m2.synthesis.usage_count = m.synthesis.usage_count + 1 ∧
      cb2.synthesis_cost = cb.synthesis_cost ∧
      cb2.synthesis_characters = cb.synthesis_characters + n) ∧
    (∃ m2 cb2,
      lookupA id
        (add_llm_usage t id i o mo "agent_response").call_metrics = some m2 ∧
      lookupA id
        (add_llm_usage t id i o mo "agent_response").call_costs = some cb2 ∧
      m2.llm.input_tokens = m.llm.input_tokens + i ∧
      m2.llm.output_tokens = m.llm.output_tokens + o ∧
      m2.llm.requests_count = m.llm.requests_count + 1 ∧
      cb2.llm_cost = cb.llm_cost ∧
      cb2.llm_input_tokens = cb.llm_input_tokens + i ∧
      cb2.llm_output_tokens = cb.llm_output_tokens + o) := by
  refine ⟨?_, ?_, ?_⟩
  · obtain ⟨e1, e2⟩ := addTrans_effect_noreset d mo "speech_to_text" hm hcb
      (by rintro ⟨hx, -⟩; exact absurd hx (by decide))
      (by rintro ⟨hx, -⟩; exact absurd hx (by decide))
    refine ⟨_, _, e1, e2, rfl, rfl, ?_, rfl⟩
    show cb.transcription_cost + d / 60 *
      lookupFlatRate (lowerS cb.transcription_provider) _ =
        cb.transcription_cost
    rw [lookupFlatRate, hT]
    ring
  · obtain ⟨e1, e2⟩ := addSynth_effect_noreset n mo "text_to_speech" hm hcb
      (by rintro ⟨hx, -⟩; exact absurd hx (by decide))
      (by rintro ⟨hx, -⟩; exact absurd hx (by decide))
    refine ⟨_, _, e1, e2, rfl, rfl, ?_, rfl⟩
    show cb.synthesis_cost + (n : ℚ) *
      lookupFlatRate (lowerS cb.synthesis_provider) _ = cb.synthesis_cost
    rw [lookupFlatRate, hS]
    ring
  · obtain ⟨e1, e2⟩ := addLLM_effect_noskip i o mo "agent_response" hm hcb
      (by rintro ⟨hx, -⟩; exact absurd hx (by decide))
    refine ⟨_, _, e1, e2, rfl, rfl, rfl, ?_, rfl, rfl⟩
    show cb.llm_cost +
      ((i : ℚ) * (lookupLLMRates (lowerS cb.llm_provider) _).1 +
       (o : ℚ) * (lookupLLMRates (lowerS cb.llm_provider) _).2) = cb.llm_cost
    rw [lookupLLMRates, hL]
    ring

/-- Witness for claim C6 at a registration with provider unknownco. -/
theorem claim_C6_witness :
    ∃ m2 cb2,
      lookupA "c1" (add_transcription_usage c6State "c1" 30 none
        "speech_to_text").call_metrics = some m2 ∧
      lookupA "c1" (add_transcription_usage c6State "c1" 30 none
        "speech_to_text").call_costs = some cb2 ∧
      m2.transcription.total_usage =
        ((lookupA "c1" c6State.call_metrics).getD
          {}).transcription.total_usage + 30 ∧
      m2.transcription.usage_count =
        ((lookupA "c1" c6State.call_metrics).getD
          {}).transcription.usage_count + 1 ∧
      cb2.transcription_cost =
        ((lookupA "c1" c6State.call_costs).getD {}).transcription_cost ∧
      cb2.transcription_seconds =
        ((lookupA "c1" c6State.call_costs).getD {}).transcription_seconds +
          30 :=
  (claim_C6_unknown_provider_rate_zero c6State "c1" _ _ 30 100 10 20 none
    (by rfl) (by rfl) (by rfl) (by rfl) (by rfl)).1

unseal Rat.add Rat.mul Rat.inv Rat.ofScientific in
/-- Claim C2 counterexample: for call c1 (deepgram/nova-2) after
[estimate 30s, live 45s], the ServiceUsage accumulators hold only the live
event (45s, one event), but the CostBreakdown keeps the estimate
contribution: transcription_seconds is 75, not 45, and transcription_cost
is 0.0045, not the marginal live cost 45/60 x 0.0036 = 0.0027.  This
refutes the claim that all of the service accumulators, including the
CostBreakdown fields, reflect only the live event. -/
theorem claim_C2_counterexample :
    (lookupA "c1" (add_transcription_usage c2State "c1" 45 none
        "live_transcription").call_metrics).map
      (fun m => (m.transcription.total_usage, m.transcription.usage_count)) =
      some (45, 1) ∧
    (lookupA "c1" (add_transcription_usage c2State "c1" 45 none
        "live_transcription").call_costs).map
      (fun cb => (cb.transcription_seconds, cb.transcription_cost)) =
      some (75, 0.0045) ∧
    (75 : ℚ) ≠ 45 ∧ (0.0045 : ℚ) ≠ 45 / 60 * 0.0036 := by
  refine ⟨by decide, by decide, by decide, by decide⟩

/-- Claim C2 amended: when a live transcription event arrives for a
registered call whose existing transcription usage events are all tagged as
transcript-estimated, the ServiceUsage accumulators (total_usage,
usage_count, usage_details) are reset and afterwards hold only the live
event, but the CostBreakdown fields for the service are not reset: its
transcription_seconds and transcription_cost accumulate the live amount and
marginal cost on top of the estimate contribution. -/
theorem claim_C2_amended {t : UnifiedCostTracker} {id : String}
    {m : CallMetrics} {cb : CostBreakdown} (d : ℚ)
    (hm : lookupA id t.call_metrics = some m)
    (hcb : lookupA id t.call_costs = some cb)
    (hne : m.transcription.usage_details ≠ [])
    (hall : ∀ det ∈ m.transcription.usage_details,
      occurs "transcript".data det.context.data = true) :
    ∃ m2 cb2,
      lookupA id (add_transcription_usage t id d none
        "live_transcription").call_metrics = some m2 ∧
      lookupA id (add_transcription_usage t id d none
        "live_transcription").call_costs = some cb2 ∧
      m2.transcription.total_usage = d ∧
      m2.transcription.usage_count = 1 ∧
      m2.transcription.usage_details =
        [{ amount := d, context := "live_transcription" }] ∧
      cb2.transcription_seconds = cb.transcription_seconds + d ∧
      cb2.transcription_cost = cb.transcription_cost + d / 60 *
        lookupFlatRate (lowerS cb.transcription_provider)
          (lowerS (pyOrStr m.transcription.model "default")) := by
  have hany : m.transcription.usage_details.any
      (fun det => occurs "transcript".data det.context.data) = true := by
    rcases hd : m.transcription.usage_details with _ | ⟨det, rest⟩
    · exact absurd hd hne
    · rw [List.any_eq_true]
      exact ⟨det, List.mem_cons_self det rest,
        hall det (by rw [hd]; exact List.mem_cons_self det rest)⟩
  obtain ⟨e1, e2⟩ := addTrans_effect_reset d none "live_transcription" hm hcb
    (by rintro ⟨hx, -⟩; exact absurd hx (by decide)) ⟨rfl, hany⟩
  exact ⟨_, _, e1, e2, zero_add d, rfl, rfl, rfl, rfl⟩

unseal Rat.add Rat.mul Rat.inv Rat.ofScientific in
/-- Witness for the amended claim C2 at the concrete state c2State. -/
theorem claim_C2_witness :
    ∃ m2 cb2,
      lookupA "c1" (add_transcription_usage c2State "c1" 45 none
        "live_transcription").call_metrics = some m2 ∧
      lookupA "c1" (add_transcription_usage c2State "c1" 45 none
        "live_transcription").call_costs = some cb2 ∧
      m2.transcription.total_usage = 45 ∧
      m2.transcription.usage_count = 1 ∧
      m2.transcription.usage_details =
        [{ amount := 45, context := "live_transcription" }] ∧
      cb2.transcription_seconds =
        ((lookupA "c1" c2State.call_costs).getD {}).transcription_seconds +
          45 ∧
      cb2.transcription_cost =
        ((lookupA "c1" c2State.call_costs).getD {}).transcription_cost +
          45 / 60 * lookupFlatRate
            (lowerS ((lookupA "c1" c2State.call_costs).getD
              {}).transcription_provider)
            (lowerS (pyOrStr ((lookupA "c1" c2State.call_metrics).getD
              {}).transcription.model "default")) :=
  claim_C2_amended 45 (by rfl) (by rfl) (by decide) (by decide)

/-- Claim C7: voicemail detection from a transcript returns true exactly
when a strong indicator phrase occurs in the lower-cased transcript, or no
strong indicator occurs but at least two distinct weak indicator phrases
occur; otherwise (including the empty transcript, where no indicator can
occur) it returns false. -/
theorem claim_C7_voicemail_detection (transcript : String) :
    detect_voicemail_from_transcript transcript = true ↔
      (hasStrongIndicator transcript = true ∨
        2 ≤ weakIndicatorCount transcript) := by
  by_cases hd : transcript.data = []
  · obtain ⟨l⟩ := transcript
    have hl : l = [] := hd
    subst hl
    decide
  · simp only [detect_voicemail_from_transcript, if_neg hd]
    by_cases h1 : hasStrongIndicator transcript = true
    · simp [h1]
    · by_cases h2 : 2 ≤ weakIndicatorCount transcript
      · simp [h1, h2]
      · simp [h1, h2]

/-- Claim C8 counterexample: the rejection detector also consults the
status attributes of the event; for a 90-second call with end_reason
completed but an event status busy, it classifies the call as rejected even
though none of the three conditions enumerated by the claim holds, so the
claimed iff fails as stated. -/
theorem claim_C8_counterexample :
    detect_call_rejection 90 "completed" ["busy"] = true ∧
    ¬((∃ v ∈ rejection_reasons,
        occurs v.data (lowerS "completed").data = true) ∨
      ((90 : ℤ) < 10 ∧ lowerS "completed" ≠ "completed" ∧
        lowerS "completed" ≠ "hangup") ∨
      ((90 : ℤ) < 20 ∧ (lowerS "completed" = "busy" ∨
        lowerS "completed" = "failed" ∨
        lowerS "completed" = "canceled"))) := by
  refine ⟨by decide, by decide⟩

/-- Claim C8 amended: the detector classifies a call as rejected iff the
lower-cased end-reason contains a phrase of the rejection vocabulary, OR
the event carries a status attribute whose lower-cased value is one of
busy, no-answer, failed, canceled, declined, OR the duration is below 10
seconds and the lower-cased end-reason is neither completed nor hangup, OR
the duration is below 20 seconds and the lower-cased end-reason is one of
busy, failed, canceled.  In particular an 8-second no-answer call is
rejected and a 90-second completed call is not. -/
theorem claim_C8_amended :
    (∀ (duration_seconds : ℤ) (end_reason : String)
        (status_values : List String),
      detect_call_rejection duration_seconds end_reason status_values =
          true ↔
        ((∃ v ∈ rejection_reasons,
            occurs v.data (lowerS end_reason).data = true) ∨
         (∃ sv ∈ status_values, ∃ st ∈ rejection_statuses,
            lowerS sv = st) ∨
         (duration_seconds < 10 ∧ lowerS end_reason ≠ "completed" ∧
            lowerS end_reason ≠ "hangup") ∨
         (duration_seconds < 20 ∧ (lowerS end_reason = "busy" ∨
            lowerS end_reason = "failed" ∨
            lowerS end_reason = "canceled")))) ∧
    detect_call_rejection 8 "no-answer" [] = true ∧
    detect_call_rejection 90 "completed" [] = false := by
  refine ⟨?_, by decide, by decide⟩
  intro d r st
  simp only [detect_call_rejection, Bool.or_eq_true, Bool.and_eq_true,
    List.any_eq_true, decide_eq_true_eq, beq_iff_eq, Bool.not_eq_true',
    Bool.or_eq_false_iff, beq_eq_false_iff_ne, or_assoc, and_assoc]

unseal Rat.add Rat.mul Rat.inv Rat.ofScientific in
/-- Claim C9 counterexample: for the transcript with the two bot lines
BOT: a and BOT: b, the code sets the synthesis estimate to 3 characters
(the stripped line bodies joined with a space), while the character count
of the BOT:-prefixed lines with the prefix stripped is 4, so the claimed
value is not the one the code stores. -/
theorem claim_C9_counterexample :
    (lookupA "c1" (estimate_usage_from_transcript (run [startC1]) "c1"
        "BOT: a\nBOT: b" 10).call_metrics).map
      (fun m => m.synthesis.total_usage) = some 3 ∧
    specBotCharacterCount "BOT: a\nBOT: b" = 4 ∧ (3 : ℚ) ≠ 4 := by
  refine ⟨by decide, by decide, by decide⟩

/-- Claim C9 amended: for every reachable tracker state and registered
call, estimate_usage_from_transcript sets the transcription total_usage to
exactly the supplied call duration when no transcription usage events were
recorded, and sets the synthesis total_usage to botCharacterCount of the
transcript (the BOT:-prefixed lines with the prefix removed and
whitespace trimmed, joined by single spaces) when no synthesis usage
events were recorded; a service that already has recorded usage is left
unchanged. -/
theorem claim_C9_amended (ops : List Op) (id txt : String) (d : ℚ)
    (m m2 : CallMetrics)
    (hm : lookupA id (run ops).call_metrics = some m)
    (hm2 : lookupA id
      (estimate_usage_from_transcript (run ops) id txt d).call_metrics =
      some m2) :
    (m.transcription.usage_count = 0 → m2.transcription.total_usage = d) ∧
    (m.synthesis.usage_count = 0 →
      m2.synthesis.total_usage = (botCharacterCount txt : ℚ)) ∧
    (m.transcription.usage_count ≠ 0 → m2.transcription = m.transcription) ∧
    (m.synthesis.usage_count ≠ 0 → m2.synthesis = m.synthesis) := by
  have hmok := metricsOK_run ops id m hm
  unfold estimate_usage_from_transcript at hm2
  rw [hm] at hm2
  dsimp only at hm2
  by_cases hc : m.transcription.usage_count = 0
  · rw [if_pos hc] at hm2
    have e1 := addTrans_metrics_effect d none
      "speech_recognition_from_transcript" hm
      (by rintro ⟨-, hlt⟩; rw [hc] at hlt; exact absurd hlt (by decide))
      (by rintro ⟨hx, -⟩; exact absurd hx (by decide))
    by_cases hs : m.synthesis.usage_count = 0
    · rw [if_pos hs] at hm2
      by_cases hb : 0 < botCharacterCount txt
      · rw [if_pos hb] at hm2
        have e2 := addSynth_metrics_effect (botCharacterCount txt) none
          "agent_responses_from_transcript" e1
          (by rintro ⟨-, hlt⟩; exact absurd hlt (by simp [hs]))
          (by rintro ⟨hx, -⟩; exact absurd hx (by decide))
        rw [e2] at hm2
        have hx := Option.some.inj hm2
        subst hx
        refine ⟨fun _ => ?_, fun _ => ?_, fun h => absurd hc h,
          fun h => absurd hs h⟩
        · show m.transcription.total_usage + d = d
          rw [hmok.1 hc, zero_add]
        · show m.synthesis.total_usage + (botCharacterCount txt : ℚ) =
            (botCharacterCount txt : ℚ)
          rw [hmok.2 hs, zero_add]
      · rw [if_neg hb] at hm2
        rw [e1] at hm2
        have hx := Option.some.inj hm2
        subst hx
        refine ⟨fun _ => ?_, fun _ => ?_, fun h => absurd hc h,
          fun h => absurd hs h⟩
        · show m.transcription.total_usage + d = d
          rw [hmok.1 hc, zero_add]
        · show m.synthesis.total_usage = (botCharacterCount txt : ℚ)
          rw [Nat.eq_zero_of_not_pos hb, Nat.cast_zero]
          exact hmok.2 hs
    · rw [if_neg hs] at hm2
      rw [e1] at hm2
      have hx := Option.some.inj hm2
      subst hx
      refine ⟨fun _ => ?_, fun h => absurd h hs, fun h => absurd hc h,
        fun _ => rfl⟩
      show m.transcription.total_usage + d = d
      rw [hmok.1 hc, zero_add]
  · rw [if_neg hc] at hm2
    by_cases hs : m.synthesis.usage_count = 0
    · rw [if_pos hs] at hm2
      by_cases hb : 0 < botCharacterCount txt
      · rw [if_pos hb] at hm2
        have e2 := addSynth_metrics_effect (botCharacterCount txt) none
          "agent_responses_from_transcript" hm
          (by rintro ⟨-, hlt⟩; rw [hs] at hlt; exact absurd hlt (by decide))
          (by rintro ⟨hx, -⟩; exact absurd hx (by decide))
        rw [e2] at hm2
        have hx := Option.some.inj hm2
        subst hx
        refine ⟨fun h => absurd h hc, fun _ => ?_, fun _ => rfl,
          fun h => absurd hs h⟩
        show m.synthesis.total_usage + (botCharacterCount txt : ℚ) =
          (botCharacterCount txt : ℚ)
        rw [hmok.2 hs, zero_add]
      · rw [if_neg hb] at hm2
        rw [hm] at hm2
        have hx := Option.some.inj hm2
        subst hx
        refine ⟨fun h => absurd h hc, fun _ => ?_, fun _ => rfl,
          fun h => absurd hs h⟩
        rw [Nat.eq_zero_of_not_pos hb, Nat.cast_zero]
        exact hmok.2 hs
    · rw [if_neg hs] at hm2
      rw [hm] at hm2
      have hx := Option.some.inj hm2
      subst hx
      exact ⟨fun h => absurd h hc, fun h => absurd h hs, fun _ => rfl,
        fun _ => rfl⟩

unseal Rat.add Rat.mul Rat.inv Rat.ofScientific in
/-- Witness for the amended claim C9: a freshly registered call with
transcript BOT: hi and duration 45. -/
theorem claim_C9_witness :
    ((lookupA "c1" (estimate_usage_from_transcript (run [startC1]) "c1"
        "BOT: hi" 45).call_metrics).getD {}).transcription.total_usage =
      45 ∧
    ((lookupA "c1" (estimate_usage_from_transcript (run [startC1]) "c1"
        "BOT: hi" 45).call_metrics).getD {}).synthesis.total_usage =
      (botCharacterCount "BOT: hi" : ℚ) :=
  ⟨(claim_C9_amended [startC1] "c1" "BOT: hi" 45
      ((lookupA "c1" (run [startC1]).call_metrics).getD {})
      ((lookupA "c1" (estimate_usage_from_transcript (run [startC1]) "c1"
        "BOT: hi" 45).call_metrics).getD {}) (by rfl) (by rfl)).1 (by rfl),
   (claim_C9_amended [startC1] "c1" "BOT: hi" 45
      ((lookupA "c1" (run [startC1]).call_metrics).getD {})
      ((lookupA "c1" (estimate_usage_from_transcript (run [startC1]) "c1"
        "BOT: hi" 45).call_metrics).getD {}) (by rfl) (by rfl)).2.1
    (by rfl)⟩

end BoostMyDeal
